import Mathlib

/-!
Shallow embedding of the kitsu.rs client library (src/reqwest_kitsu.rs,
src/bridge/hyper.rs, tests/test_reqwest_support.rs).

The library builds URLs against a fixed API base, issues HTTP GET requests and
maps transport responses to typed results.  The two backends (the async/await
`reqwest` bridge and the future-combinator `hyper` bridge) are embedded as
functions producing an `Op` value: either an immediate failure (returned before
any network activity) or a request carrying the dispatched URL, the diagnostic
lines printed before dispatch, and the handler applied to the transport
response.  External collaborators (the URL parser, the JSON codec) are
parameters, matching the spec's "external collaborators" section; `u64` ids are
modelled as `Nat` because only their decimal rendering is used.
-/

/-- A transport response: numeric status code plus body bytes (as a string). -/
structure TransportResponse where
  status : Nat
  body : String
  deriving DecidableEq, Repr

/-- The crate's error taxonomy, as used by the two bridges.  `Json` carries the
parser diagnostic (the crate's `Error::Json`, per the doc comments of
`reqwest_kitsu.rs`); the `Reqwest*` variants own the original response
(`Box<Response>` in the source); `ReqwestParse` is the reqwest bridge's URL
parse failure and `Uri` the hyper bridge's (`Error::Uri` in `try_uri!`). -/
inductive KitsuError where
  | Json : String → KitsuError
  | ReqwestBad : TransportResponse → KitsuError
  | ReqwestUnauthorized : TransportResponse → KitsuError
  | ReqwestInvalid : TransportResponse → KitsuError
  | ReqwestParse : KitsuError
  | Uri : KitsuError
  deriving DecidableEq, Repr

/-- The observable behaviour of one facade operation: either it returns an
error before contacting the network (`fail`), or it dispatches a GET to a URL
after printing the given diagnostic lines, handling the transport response with
the given continuation (`request`). -/
inductive Op (α : Type) where
  | fail : KitsuError → Op α
  | request : String → List String → (TransportResponse → Except KitsuError α) → Op α

/-- The dispatched URL, when the operation reaches the network. -/
def Op.url {α : Type} : Op α → Option String
  | .fail _ => none
  | .request u _ _ => some u

/-- The diagnostic lines printed by the operation before dispatch. -/
def Op.diag {α : Type} : Op α → List String
  | .fail _ => []
  | .request _ d _ => d

/-- Run the operation against a delivered transport response; a `fail`
operation never looks at the response. -/
def Op.runOn {α : Type} : Op α → TransportResponse → Except KitsuError α
  | .fail e, _ => .error e
  | .request _ _ h, resp => h resp

/-- Decimal digit character for `n % 10` (the digits of Rust's `u64`
`Display`). -/
def decDigitChar (n : Nat) : Char :=
  match n % 10 with
  | 0 => '0' | 1 => '1' | 2 => '2' | 3 => '3' | 4 => '4'
  | 5 => '5' | 6 => '6' | 7 => '7' | 8 => '8' | _ => '9'

/-- Decimal digit list of `n`, most significant first, with recursion fuel
(the fuel `n + 1` in `decDigits` always suffices). -/
def decDigitsAux : Nat → Nat → List Char
  | 0, _ => []
  | fuel + 1, n =>
    if n < 10 then [decDigitChar n]
    else decDigitsAux fuel (n / 10) ++ [decDigitChar n]

/-- Decimal digit list of `n`, most significant first. -/
def decDigits (n : Nat) : List Char := decDigitsAux (n + 1) n

/-- Rust's `u64::to_string()` / `Display`: plain decimal rendering. -/
def rustU64ToString (n : Nat) : String := ⟨decDigits n⟩

/-- Every character produced by `decDigits` is an ASCII decimal digit. -/
theorem decDigitChar_isDigit (n : Nat) : (decDigitChar n).isDigit = true := by
  unfold decDigitChar
  split <;> decide

theorem decDigitsAux_isDigit (fuel n : Nat) :
    ∀ c ∈ decDigitsAux fuel n, c.isDigit = true := by
  induction fuel generalizing n with
  | zero => intro c hc; simp [decDigitsAux] at hc
  | succ fuel ih =>
    intro c hc
    rw [decDigitsAux] at hc
    by_cases h : n < 10
    · rw [if_pos h] at hc
      simp only [List.mem_singleton] at hc
      exact hc ▸ decDigitChar_isDigit n
    · rw [if_neg h] at hc
      rcases List.mem_append.mp hc with h1 | h2
      · exact ih (n / 10) c h1
      · simp only [List.mem_singleton] at h2
        exact h2 ▸ decDigitChar_isDigit n

theorem decDigits_isDigit (n : Nat) :
    ∀ c ∈ decDigits n, c.isDigit = true :=
  decDigitsAux_isDigit (n + 1) n

/-- An unreserved URL character (RFC 3986): letters, digits, `-`, `.`, `_`,
`~`.  These are emitted verbatim by the percent encoder; every other
character is escaped. -/
def isUnreservedChar (c : Char) : Bool :=
  c.isAlphanum || c = '-' || c = '.' || c = '_' || c = '~'

/-- Uppercase hexadecimal digit character for `n % 16`. -/
def hexDigitChar (n : Nat) : Char :=
  match n % 16 with
  | 0 => '0' | 1 => '1' | 2 => '2' | 3 => '3' | 4 => '4'
  | 5 => '5' | 6 => '6' | 7 => '7' | 8 => '8' | 9 => '9'
  | 10 => 'A' | 11 => 'B' | 12 => 'C' | 13 => 'D' | 14 => 'E' | _ => 'F'

/-- Modelled from the spec: the Query Builder's percent encoding of one
character (the builder lives in `src/builder.rs`, which is not under `src/`;
the spec states that "percent-encoding must escape reserved URL characters in
both key and value" and its example encodes a space as `%20`).  Unreserved
characters pass through; any other character is escaped as `%` plus two
uppercase hex digits of its code (the spec exercises only the ASCII range). -/
def percentEncodeChar (c : Char) : List Char :=
  if isUnreservedChar c then [c]
  else ['%', hexDigitChar (c.toNat / 16), hexDigitChar c.toNat]

/-- Modelled from the spec: percent encoding of a whole component. -/
def percentEncode (s : String) : String :=
  ⟨s.data.flatMap percentEncodeChar⟩

/-- Modelled from the spec: the `Search` query builder of `src/builder.rs`
(not under `src/`): "an ordered sequence of (key, value) string pairs",
created empty, mutated only by `filter`, consumed once into the encoded query
string. -/
structure Search where
  pairs : List (String × String)
  deriving DecidableEq, Repr

/-- Modelled from the spec: `Search::default()` — the empty builder. -/
def Search.default : Search := ⟨[]⟩

/-- Modelled from the spec: `filter(key, value)` "appends one pair and
returns the updated builder, enabling chained calls". -/
def Search.filter (s : Search) (key value : String) : Search :=
  ⟨s.pairs ++ [(key, value)]⟩

/-- Modelled from the spec: one pair rendered as `key=value` with both
components percent-encoded. -/
def encodePair (p : String × String) : String :=
  percentEncode p.1 ++ "=" ++ percentEncode p.2

/-- Modelled from the spec: the pair list rendered in order, joined by `&`. -/
def encodePairs : List (String × String) → String
  | [] => ""
  | [p] => encodePair p
  | p :: q :: rest => encodePair p ++ "&" ++ encodePairs (q :: rest)

/-- Modelled from the spec: the consuming conversion reading the builder as a
single encoded string (the `.0` field used by the bridges); pairs are encoded
as `key=value`, joined by `&`, in insertion order, with both components
percent-encoded (the spec example `"text"`/`"non non biyori"` encodes to
`text=non%20non%20biyori`). -/
def Search.encode (s : Search) : String :=
  encodePairs s.pairs

/-- Modelled from the spec: the caller-supplied filter closure applied as a
sequence of `filter` calls, one per listed pair. -/
def Search.applyFilters (s : Search) : List (String × String) → Search
  | [] => s
  | (k, v) :: rest => Search.applyFilters (s.filter k v) rest

namespace reqwest_kitsu

/-!
The async/await backend, `src/src/reqwest_kitsu.rs`.  Each facade method is a
function of the external URL parser (`Url::parse`, modelled as a predicate on
the assembled string), the external JSON codec for the target type
(`response.json::<T>()`, modelled as `decode`), the `API_URL` constant (whose
value lives in the crate root, outside `src/`, so it is a parameter), and the
method's own argument.
-/

/-- `handle_request` of `src/src/reqwest_kitsu.rs` lines 411-426: match on the
status code — 200 falls through to JSON decoding (decode failure becomes the
`Json` error carrying the diagnostic, per the crate docs for the `From`
conversion), 400 returns `ReqwestBad` owning the response, 401 returns
`ReqwestUnauthorized` owning the response, anything else returns
`ReqwestInvalid` owning the response. -/
def handle_request {α : Type} (decode : String → Except String α)
    (resp : TransportResponse) : Except KitsuError α :=
  if resp.status = 200 then
    match decode resp.body with
    | .ok v => .ok v
    | .error e => .error (.Json e)
  else if resp.status = 400 then .error (.ReqwestBad resp)
  else if resp.status = 401 then .error (.ReqwestUnauthorized resp)
  else .error (.ReqwestInvalid resp)

/-- The URL string assembled by `get_anime`:
`format!("{}/anime/{}", API_URL, id.to_string())`. -/
def get_anime_url (apiUrl : String) (id : Nat) : String :=
  apiUrl ++ "/anime/" ++ rustU64ToString id

/-- The URL string assembled by `get_manga`. -/
def get_manga_url (apiUrl : String) (id : Nat) : String :=
  apiUrl ++ "/manga/" ++ rustU64ToString id

/-- The URL string assembled by `get_user`. -/
def get_user_url (apiUrl : String) (id : Nat) : String :=
  apiUrl ++ "/users/" ++ rustU64ToString id

/-- The URL string assembled by `search_anime`:
`format!("{}/anime?{}", API_URL, params)` with `params` the encoded state of
`f(Search::default())`. -/
def search_anime_url (apiUrl : String) (f : Search → Search) : String :=
  apiUrl ++ "/anime?" ++ (f Search.default).encode

/-- The URL string assembled by `search_manga`. -/
def search_manga_url (apiUrl : String) (f : Search → Search) : String :=
  apiUrl ++ "/manga?" ++ (f Search.default).encode

/-- The URL string assembled by `search_users`. -/
def search_users_url (apiUrl : String) (f : Search → Search) : String :=
  apiUrl ++ "/users?" ++ (f Search.default).encode

/-- `get_anime`: parse the assembled URL, returning `ReqwestParse` on parse
failure (the `?` on `Url::parse`), then GET and handle. -/
def get_anime {α : Type} (parse : String → Bool)
    (decode : String → Except String α) (apiUrl : String) (id : Nat) : Op α :=
  let uri := get_anime_url apiUrl id
  if parse uri then .request uri [] (handle_request decode)
  else .fail .ReqwestParse

/-- `get_manga`: same shape over `format!("{}/manga/{}", ...)`. -/
def get_manga {α : Type} (parse : String → Bool)
    (decode : String → Except String α) (apiUrl : String) (id : Nat) : Op α :=
  let uri := get_manga_url apiUrl id
  if parse uri then .request uri [] (handle_request decode)
  else .fail .ReqwestParse

/-- `get_user`: same shape over `format!("{}/users/{}", ...)`. -/
def get_user {α : Type} (parse : String → Bool)
    (decode : String → Except String α) (apiUrl : String) (id : Nat) : Op α :=
  let uri := get_user_url apiUrl id
  if parse uri then .request uri [] (handle_request decode)
  else .fail .ReqwestParse

/-- `search_anime`: apply `f` to `Search::default()`, read the encoded params,
parse `format!("{}/anime?{}", ...)`, then GET and handle.  No diagnostic
output. -/
def search_anime {α : Type} (parse : String → Bool)
    (decode : String → Except String α) (apiUrl : String)
    (f : Search → Search) : Op α :=
  let uri := search_anime_url apiUrl f
  if parse uri then .request uri [] (handle_request decode)
  else .fail .ReqwestParse

/-- `search_manga`: like `search_anime` over `/manga?`, but prints
`println!("Reqwesting uri: {}", uri)` after the URL parses and before
dispatch (the `Url` display is modelled as the assembled string). -/
def search_manga {α : Type} (parse : String → Bool)
    (decode : String → Except String α) (apiUrl : String)
    (f : Search → Search) : Op α :=
  let uri := search_manga_url apiUrl f
  if parse uri then
    .request uri ["Reqwesting uri: " ++ uri] (handle_request decode)
  else .fail .ReqwestParse

/-- `search_users`: like `search_manga` over `/users?`, including the
`println!` diagnostic. -/
def search_users {α : Type} (parse : String → Bool)
    (decode : String → Except String α) (apiUrl : String)
    (f : Search → Search) : Op α :=
  let uri := search_users_url apiUrl f
  if parse uri then
    .request uri ["Reqwesting uri: " ++ uri] (handle_request decode)
  else .fail .ReqwestParse

/-- The method names declared by `trait KitsuRequester` of
`src/src/reqwest_kitsu.rs`, in declaration order. -/
def methods : List String :=
  ["get_anime", "get_manga", "get_user",
   "search_anime", "search_manga", "search_users"]

end reqwest_kitsu

namespace hyper_bridge

/-!
The future-combinator backend, `src/src/bridge/hyper.rs`.  Each method builds
the URL string, converts it with `Uri::from_str` via `try_uri!` (parse failure
returns `Error::Uri` before any network activity), then chains
`self.get(uri) → concat2 → serde_json::from_slice`.  The response status code
is never inspected: the body is JSON-decoded whatever the status.
-/

/-- The response pipeline of every hyper method (lines such as 371-374):
concatenate the body and decode it as JSON, with no status inspection; a
serde failure maps into the `Json` error. -/
def handle_body {α : Type} (decode : String → Except String α)
    (resp : TransportResponse) : Except KitsuError α :=
  match decode resp.body with
  | .ok v => .ok v
  | .error e => .error (.Json e)

/-- The URL string assembled by the hyper `get_anime`:
`format!("{}/anime/{}", API_URL, id)`. -/
def get_anime_url (apiUrl : String) (id : Nat) : String :=
  apiUrl ++ "/anime/" ++ rustU64ToString id

/-- The URL string assembled by the hyper `get_character`. -/
def get_character_url (apiUrl : String) (id : Nat) : String :=
  apiUrl ++ "/characters/" ++ rustU64ToString id

/-- The URL string assembled by the hyper `get_manga`. -/
def get_manga_url (apiUrl : String) (id : Nat) : String :=
  apiUrl ++ "/manga/" ++ rustU64ToString id

/-- The URL string assembled by the hyper `get_producer` — note the singular
`producer` path segment in the source (line 403). -/
def get_producer_url (apiUrl : String) (id : Nat) : String :=
  apiUrl ++ "/producer/" ++ rustU64ToString id

/-- The URL string assembled by the hyper `get_user`. -/
def get_user_url (apiUrl : String) (id : Nat) : String :=
  apiUrl ++ "/users/" ++ rustU64ToString id

/-- The URL string assembled by the hyper `search_anime`:
`format!("{}/anime?{}", API_URL, params)`. -/
def search_anime_url (apiUrl : String) (f : Search → Search) : String :=
  apiUrl ++ "/anime?" ++ (f Search.default).encode

/-- The URL string assembled by the hyper `search_characters`. -/
def search_characters_url (apiUrl : String) (f : Search → Search) : String :=
  apiUrl ++ "/characters?" ++ (f Search.default).encode

/-- The URL string assembled by the hyper `search_manga`. -/
def search_manga_url (apiUrl : String) (f : Search → Search) : String :=
  apiUrl ++ "/manga?" ++ (f Search.default).encode

/-- The URL string assembled by the hyper `search_users`. -/
def search_users_url (apiUrl : String) (f : Search → Search) : String :=
  apiUrl ++ "/users?" ++ (f Search.default).encode

/-- `get_anime` over `format!("{}/anime/{}", API_URL, id)`. -/
def get_anime {α : Type} (parse : String → Bool)
    (decode : String → Except String α) (apiUrl : String) (id : Nat) : Op α :=
  let url := get_anime_url apiUrl id
  if parse url then .request url [] (handle_body decode)
  else .fail .Uri

/-- `get_character` over `format!("{}/characters/{}", API_URL, id)`. -/
def get_character {α : Type} (parse : String → Bool)
    (decode : String → Except String α) (apiUrl : String) (id : Nat) : Op α :=
  let url := get_character_url apiUrl id
  if parse url then .request url [] (handle_body decode)
  else .fail .Uri

/-- `get_manga` over `format!("{}/manga/{}", API_URL, id)`. -/
def get_manga {α : Type} (parse : String → Bool)
    (decode : String → Except String α) (apiUrl : String) (id : Nat) : Op α :=
  let url := get_manga_url apiUrl id
  if parse url then .request url [] (handle_body decode)
  else .fail .Uri

/-- `get_producer` over `format!("{}/producer/{}", API_URL, id)`. -/
def get_producer {α : Type} (parse : String → Bool)
    (decode : String → Except String α) (apiUrl : String) (id : Nat) : Op α :=
  let url := get_producer_url apiUrl id
  if parse url then .request url [] (handle_body decode)
  else .fail .Uri

/-- `get_user` over `format!("{}/users/{}", API_URL, id)`. -/
def get_user {α : Type} (parse : String → Bool)
    (decode : String → Except String α) (apiUrl : String) (id : Nat) : Op α :=
  let url := get_user_url apiUrl id
  if parse url then .request url [] (handle_body decode)
  else .fail .Uri

/-- `search_anime` over `format!("{}/anime?{}", API_URL, params)`. -/
def search_anime {α : Type} (parse : String → Bool)
    (decode : String → Except String α) (apiUrl : String)
    (f : Search → Search) : Op α :=
  let url := search_anime_url apiUrl f
  if parse url then .request url [] (handle_body decode)
  else .fail .Uri

/-- `search_characters` over `format!("{}/characters?{}", API_URL, params)`. -/
def search_characters {α : Type} (parse : String → Bool)
    (decode : String → Except String α) (apiUrl : String)
    (f : Search → Search) : Op α :=
  let url := search_characters_url apiUrl f
  if parse url then .request url [] (handle_body decode)
  else .fail .Uri

/-- `search_manga` over `format!("{}/manga?{}", API_URL, params)`. -/
def search_manga {α : Type} (parse : String → Bool)
    (decode : String → Except String α) (apiUrl : String)
    (f : Search → Search) : Op α :=
  let url := search_manga_url apiUrl f
  if parse url then .request url [] (handle_body decode)
  else .fail .Uri

/-- `search_users` over `format!("{}/users?{}", API_URL, params)`. -/
def search_users {α : Type} (parse : String → Bool)
    (decode : String → Except String α) (apiUrl : String)
    (f : Search → Search) : Op α :=
  let url := search_users_url apiUrl f
  if parse url then .request url [] (handle_body decode)
  else .fail .Uri

/-- The method names declared by `trait KitsuRequester` of
`src/src/bridge/hyper.rs`, in declaration order. -/
def methods : List String :=
  ["get_anime", "get_character", "get_manga", "get_producer", "get_user",
   "search_anime", "search_characters", "search_manga", "search_users"]

end hyper_bridge

/-- Does `l` contain `pat` as a contiguous run? -/
def containsSeq (pat : List Char) : List Char → Bool
  | [] => pat.isEmpty
  | c :: rest => pat.isPrefixOf (c :: rest) || containsSeq pat rest

/-- A character legal in a URL without escaping: letters, digits, and the
RFC 3986 reserved / unreserved punctuation. -/
def allowedUrlChar (c : Char) : Bool :=
  c.isAlphanum || "-._~:/?#@!$&()*+,;=%".data.contains c

/-- Modelled from the spec: the external URL parser (`Url::parse` /
`Uri::from_str`, not part of this repository) "must validate and construct
absolute URLs from string templates"; modelled as accepting exactly the
strings that contain the scheme separator `://` and whose characters are all
URL characters. -/
def urlParseOk (s : String) : Bool :=
  containsSeq "://".data s.data && s.data.all allowedUrlChar

theorem containsSeq_append (pat l l2 : List Char)
    (h : containsSeq pat l = true) : containsSeq pat (l ++ l2) = true := by
  induction l with
  | nil =>
    rw [containsSeq] at h
    have hp : pat = [] := List.isEmpty_iff.mp h
    subst hp
    cases l2 with
    | nil => rfl
    | cons c rest =>
      rw [List.nil_append, containsSeq]
      simp [List.isPrefixOf]
  | cons c rest ih =>
    rw [containsSeq, Bool.or_eq_true] at h
    rw [List.cons_append, containsSeq, Bool.or_eq_true]
    rcases h with h1 | h2
    · left
      rw [List.isPrefixOf_iff_prefix] at h1 ⊢
      rw [← List.cons_append]
      exact h1.trans (List.prefix_append _ _)
    · right
      exact ih h2

theorem isDigit_allowedUrlChar (c : Char) (h : c.isDigit = true) :
    allowedUrlChar c = true := by
  have : c.isAlphanum = true := by simp [Char.isAlphanum, h]
  simp [allowedUrlChar, this]

/-- Appending URL characters to an accepted URL keeps it accepted. -/
theorem urlParseOk_append (s t : String) (hs : urlParseOk s = true)
    (ht : ∀ c ∈ t.data, allowedUrlChar c = true) :
    urlParseOk (s ++ t) = true := by
  rw [urlParseOk, Bool.and_eq_true] at hs ⊢
  rw [String.data_append]
  refine ⟨containsSeq_append _ _ _ hs.1, ?_⟩
  rw [List.all_append, Bool.and_eq_true]
  exact ⟨hs.2, List.all_eq_true.mpr (fun c hc => ht c hc)⟩

/-- The resources the service exposes, as named by the spec. -/
inductive Resource where
  | anime | manga | character | producer | user
  deriving DecidableEq, Repr

/-- The path segment the claim assigns to each get-by-id resource: "the
pluralized resource name except for the anime and manga resources, which are
invariant under pluralization (so in particular character, producer, and user
use their pluralized names)". -/
def claimedSegment : Resource → String
  | .anime => "anime"
  | .manga => "manga"
  | .character => "characters"
  | .producer => "producers"
  | .user => "users"

/-- The path segment the source actually uses: as `claimedSegment`, except
the producer resource keeps the singular segment `producer`
(`src/src/bridge/hyper.rs` line 403, matching the spec's endpoint table). -/
def amendedSegment : Resource → String
  | .anime => "anime"
  | .manga => "manga"
  | .character => "characters"
  | .producer => "producer"
  | .user => "users"

/-- The get-by-id URL the claim prescribes for a resource. -/
def claimedGetPath (apiUrl : String) (r : Resource) (id : Nat) : String :=
  apiUrl ++ ("/" ++ claimedSegment r ++ "/") ++ rustU64ToString id

/-- The get-by-id URL prescribed by the amended rule. -/
def amendedGetPath (apiUrl : String) (r : Resource) (id : Nat) : String :=
  apiUrl ++ ("/" ++ amendedSegment r ++ "/") ++ rustU64ToString id

/-- A character that may appear in a percent-encoded component: unreserved,
or part of a `%XX` escape. -/
def encodedComponentChar (c : Char) : Bool :=
  isUnreservedChar c || c = '%'

/-- The URL parser that accepts every string (a stand-in transport
environment for concrete runs). -/
def pTrue : String → Bool := fun _ => true

/-- The URL parser that rejects every string. -/
def pFalse : String → Bool := fun _ => false

/-- A concrete JSON codec for concrete runs: the body `"1"` decodes to `1`,
anything else is a parse failure. -/
def decNat : String → Except String Nat :=
  fun s => if s = "1" then .ok 1 else .error "invalid"

theorem applyFilters_pairs (ps : List (String × String)) :
    ∀ s : Search, (s.applyFilters ps).pairs = s.pairs ++ ps := by
  induction ps with
  | nil => intro s; simp [Search.applyFilters]
  | cons p rest ih =>
    intro s
    obtain ⟨k, v⟩ := p
    rw [Search.applyFilters, ih, Search.filter]
    simp

theorem hexDigitChar_isUnreserved (n : Nat) :
    isUnreservedChar (hexDigitChar n) = true := by
  unfold hexDigitChar
  split <;> decide

theorem percentEncodeChar_safe (c : Char) :
    ∀ d ∈ percentEncodeChar c, encodedComponentChar d = true := by
  intro d hd
  unfold percentEncodeChar at hd
  by_cases h : isUnreservedChar c = true
  · rw [if_pos h] at hd
    simp only [List.mem_singleton] at hd
    subst hd
    simp [encodedComponentChar, h]
  · rw [if_neg h] at hd
    simp only [List.mem_cons, List.mem_singleton] at hd
    rcases hd with h1 | h2 | h3
    · subst h1; decide
    · subst h2; simp [encodedComponentChar, hexDigitChar_isUnreserved]
    · rcases h3 with h3 | h3
      · subst h3; simp [encodedComponentChar, hexDigitChar_isUnreserved]
      · simp at h3

theorem percentEncode_safe (s : String) :
    ∀ d ∈ (percentEncode s).data, encodedComponentChar d = true := by
  intro d hd
  unfold percentEncode at hd
  simp only [List.mem_flatMap] at hd
  obtain ⟨c, _, hc⟩ := hd
  exact percentEncodeChar_safe c d hc

theorem encodePairs_append_last (l : List (String × String))
    (q : String × String) (h : l ≠ []) :
    encodePairs (l ++ [q]) = encodePairs l ++ "&" ++ encodePair q := by
  induction l with
  | nil => exact absurd rfl h
  | cons p rest ih =>
    cases rest with
    | nil => rfl
    | cons p2 rest2 =>
      have hne : p2 :: rest2 ≠ [] := by simp
      calc encodePairs ((p :: p2 :: rest2) ++ [q])
          = encodePair p ++ "&" ++ encodePairs ((p2 :: rest2) ++ [q]) := rfl
        _ = encodePair p ++ "&"
              ++ (encodePairs (p2 :: rest2) ++ "&" ++ encodePair q) := by
            rw [ih hne]
        _ = encodePairs (p :: p2 :: rest2) ++ "&" ++ encodePair q := by
            show _ = encodePair p ++ "&" ++ encodePairs (p2 :: rest2)
                ++ "&" ++ encodePair q
            simp [String.append_assoc]

/-!  Claim theorems. -/

/-- C3 counterexample: the hyper backend's `get_producer` builds the URL with
the singular segment `producer`, not the pluralized `producers` the claim
prescribes, so the constructed URL differs from the claimed
`{API_URL}/{pluralized}/{id}` form at `id = 1`. -/
theorem producer_path_not_pluralized :
    hyper_bridge.get_producer_url "https://kitsu.io/api/edge" 1
        = "https://kitsu.io/api/edge/producer/1"
    ∧ claimedGetPath "https://kitsu.io/api/edge" Resource.producer 1
        = "https://kitsu.io/api/edge/producers/1"
    ∧ hyper_bridge.get_producer_url "https://kitsu.io/api/edge" 1
        ≠ claimedGetPath "https://kitsu.io/api/edge" Resource.producer 1 := by
  refine ⟨by decide, by decide, by decide⟩

/-- C3 (amended: the path segment is the pluralized resource name, except
anime and manga, which are invariant under pluralization, and producer, which
keeps the singular segment `producer`; character and user use their
pluralized names): every get-by-id URL on either backend equals
`{API_URL}/{segment}/{id}` under the amended segment table, and the appended
part carries no query string (no `?` occurs after the base). -/
theorem get_urls_match_amended_rule (apiUrl : String) (id : Nat) :
    reqwest_kitsu.get_anime_url apiUrl id
        = amendedGetPath apiUrl Resource.anime id
    ∧ reqwest_kitsu.get_manga_url apiUrl id
        = amendedGetPath apiUrl Resource.manga id
    ∧ reqwest_kitsu.get_user_url apiUrl id
        = amendedGetPath apiUrl Resource.user id
    ∧ hyper_bridge.get_anime_url apiUrl id
        = amendedGetPath apiUrl Resource.anime id
    ∧ hyper_bridge.get_character_url apiUrl id
        = amendedGetPath apiUrl Resource.character id
    ∧ hyper_bridge.get_manga_url apiUrl id
        = amendedGetPath apiUrl Resource.manga id
    ∧ hyper_bridge.get_producer_url apiUrl id
        = amendedGetPath apiUrl Resource.producer id
    ∧ hyper_bridge.get_user_url apiUrl id
        = amendedGetPath apiUrl Resource.user id
    ∧ ∀ r : Resource,
        '?' ∈ (("/" ++ amendedSegment r ++ "/") ++ rustU64ToString id).data
          → False := by
  refine ⟨?_, ?_, ?_, ?_, ?_, ?_, ?_, ?_, ?_⟩
  · rw [amendedGetPath, (by decide :
      ("/" ++ amendedSegment Resource.anime ++ "/" : String) = "/anime/")]
    rfl
  · rw [amendedGetPath, (by decide :
      ("/" ++ amendedSegment Resource.manga ++ "/" : String) = "/manga/")]
    rfl
  · rw [amendedGetPath, (by decide :
      ("/" ++ amendedSegment Resource.user ++ "/" : String) = "/users/")]
    rfl
  · rw [amendedGetPath, (by decide :
      ("/" ++ amendedSegment Resource.anime ++ "/" : String) = "/anime/")]
    rfl
  · rw [amendedGetPath, (by decide :
      ("/" ++ amendedSegment Resource.character ++ "/" : String)
        = "/characters/")]
    rfl
  · rw [amendedGetPath, (by decide :
      ("/" ++ amendedSegment Resource.manga ++ "/" : String) = "/manga/")]
    rfl
  · rw [amendedGetPath, (by decide :
      ("/" ++ amendedSegment Resource.producer ++ "/" : String)
        = "/producer/")]
    rfl
  · rw [amendedGetPath, (by decide :
      ("/" ++ amendedSegment Resource.user ++ "/" : String) = "/users/")]
    rfl
  · intro r hmem
    rw [String.data_append] at hmem
    rcases List.mem_append.mp hmem with h1 | h2
    · cases r <;> revert h1 <;> decide
    · have hdig := decDigits_isDigit id _ h2
      simp at hdig

/-- C3 witness: the amended rule evaluated at the producer resource, base
`https://kitsu.io/api/edge`, id 1. -/
theorem get_urls_match_amended_rule_witness :
    hyper_bridge.get_producer_url "https://kitsu.io/api/edge" 1
        = amendedGetPath "https://kitsu.io/api/edge" Resource.producer 1
    ∧ ('?' ∈ (("/" ++ amendedSegment Resource.producer ++ "/")
          ++ rustU64ToString 1).data → False) :=
  ⟨(get_urls_match_amended_rule "https://kitsu.io/api/edge" 1).2.2.2.2.2.2.1,
   (get_urls_match_amended_rule "https://kitsu.io/api/edge" 1).2.2.2.2.2.2.2.2
     Resource.producer⟩

/-- C8: the hyper trait declares exactly get_anime, get_character, get_manga,
get_producer, get_user, search_anime, search_characters, search_manga,
search_users; the reqwest trait declares exactly get_anime, get_manga,
get_user, search_anime, search_manga, search_users — so the reqwest backend
omits search_characters and get_producer (and every reqwest method is also a
hyper method, so the enumeration covers both backends). -/
theorem backend_method_surfaces :
    hyper_bridge.methods
      = ["get_anime", "get_character", "get_manga", "get_producer",
         "get_user", "search_anime", "search_characters", "search_manga",
         "search_users"]
    ∧ reqwest_kitsu.methods
      = ["get_anime", "get_manga", "get_user", "search_anime",
         "search_manga", "search_users"]
    ∧ hyper_bridge.methods.contains "search_characters" = true
    ∧ reqwest_kitsu.methods.contains "search_characters" = false
    ∧ hyper_bridge.methods.contains "get_producer" = true
    ∧ reqwest_kitsu.methods.contains "get_producer" = false
    ∧ reqwest_kitsu.methods.all
        (fun m => hyper_bridge.methods.contains m) = true := by
  refine ⟨rfl, rfl, by decide, by decide, by decide, by decide, by decide⟩

/-- C6: the Query Builder preserves insertion order — `filter` appends
exactly one pair and returns the updated builder, a chain of `filter` calls
from the empty builder accumulates exactly the listed pairs in order (so
nothing is ever removed and duplicate keys both survive, as the explicit
duplicate-pair chain shows), and the encoded string places each newly added
pair at the end. -/
theorem search_builder_preserves_insertion_order
    (ps : List (String × String)) (s : Search) (k v : String) :
    (s.filter k v).pairs = s.pairs ++ [(k, v)]
    ∧ (Search.default.applyFilters ps).pairs = ps
    ∧ ((Search.default.filter k v).filter k v).pairs = [(k, v), (k, v)]
    ∧ (s.pairs = [] →
        (s.filter k v).encode = encodePair (k, v))
    ∧ (s.pairs ≠ [] →
        (s.filter k v).encode = s.encode ++ "&" ++ encodePair (k, v)) := by
  refine ⟨rfl, ?_, ?_, ?_, ?_⟩
  · rw [applyFilters_pairs]
    rfl
  · simp [Search.filter, Search.default]
  · intro h
    rw [Search.encode, Search.filter, h]
    rfl
  · intro h
    rw [Search.encode, Search.filter]
    exact encodePairs_append_last s.pairs (k, v) h

/-- C6 witness: a two-step chain with a duplicate key, evaluated
concretely. -/
theorem search_builder_preserves_insertion_order_witness :
    ((Search.default.filter "a" "1").filter "a" "2").pairs
        = [("a", "1"), ("a", "2")]
    ∧ (Search.default.filter "a" "1").encode = encodePair ("a", "1")
    ∧ ((Search.default.filter "a" "1").filter "a" "2").encode
        = (Search.default.filter "a" "1").encode ++ "&" ++ encodePair ("a", "2") := by
  refine ⟨?_, ?_, ?_⟩
  · exact (search_builder_preserves_insertion_order
      [("a", "1"), ("a", "2")] (Search.default.filter "a" "1") "x" "y").2.1
  · exact (search_builder_preserves_insertion_order [] Search.default
      "a" "1").2.2.2.1 rfl
  · exact (search_builder_preserves_insertion_order []
      (Search.default.filter "a" "1") "a" "2").2.2.2.2 (by decide)

/-- C7: the encoded query string of any single filter pair consists only of
unreserved characters, percent escapes, and the `=` separator (spaces and
reserved URL characters are escaped by construction, and the builder
operations are total), and the spec's example pair `"text"` /
`"non non biyori"` encodes exactly to `text=non%20non%20biyori`. -/
theorem percent_encoding_wellformed (k v : String) :
    ((Search.default.filter k v).encode).data.all
        (fun c => encodedComponentChar c || c = '=') = true
    ∧ (Search.default.filter "text" "non non biyori").encode
        = "text=non%20non%20biyori" := by
  constructor
  · have henc : (Search.default.filter k v).encode = encodePair (k, v) := rfl
    rw [henc]
    rw [encodePair]
    rw [List.all_eq_true]
    intro c hc
    rw [String.data_append, String.data_append] at hc
    rcases List.mem_append.mp hc with h1 | h2
    · rcases List.mem_append.mp h1 with h3 | h4
      · have := percentEncode_safe k c h3
        simp [this]
      · simp only [List.mem_singleton] at h4
        subst h4
        decide
    · have := percentEncode_safe v c h2
      simp [this]
  · decide

/-- C1 counterexample: on the hyper backend, a status-400 response whose body
decodes to the expected shape is returned as a success — the body of a
non-200 response is decoded as JSON, and no Bad Request error variant is
produced, contrary to the claim's "on either backend". -/
theorem hyper_decodes_non_200_body :
    (hyper_bridge.get_anime pTrue decNat "https://kitsu.io/api/edge" 1).runOn
        ⟨400, "1"⟩ = Except.ok 1
    ∧ (hyper_bridge.get_anime pTrue decNat "https://kitsu.io/api/edge" 1).runOn
        ⟨400, "1"⟩
      ≠ Except.error (KitsuError.ReqwestBad ⟨400, "1"⟩) :=
  ⟨rfl, fun h => nomatch h⟩

/-- C1 (amended: restricted to the reqwest backend, whose shared
`handle_request` is the response pipeline of every facade operation): a 200
status decodes the body, surfacing decode failure as the Json error with the
parser diagnostic; 400 yields ReqwestBad owning the response; 401 yields
ReqwestUnauthorized owning the response; any other status yields
ReqwestInvalid owning the response; no non-200 body is ever decoded as a
success; and each reqwest facade operation, once its URL parses, handles the
transport response exactly through `handle_request`. -/
theorem reqwest_response_classification {α : Type}
    (decode : String → Except String α) (resp : TransportResponse)
    (parse : String → Bool) (apiUrl : String) (id : Nat)
    (f : Search → Search) :
    (resp.status = 200 → ∀ v, decode resp.body = Except.ok v →
        reqwest_kitsu.handle_request decode resp = Except.ok v)
    ∧ (resp.status = 200 → ∀ e, decode resp.body = Except.error e →
        reqwest_kitsu.handle_request decode resp
          = Except.error (KitsuError.Json e))
    ∧ (resp.status = 400 →
        reqwest_kitsu.handle_request decode resp
          = Except.error (KitsuError.ReqwestBad resp))
    ∧ (resp.status = 401 →
        reqwest_kitsu.handle_request decode resp
          = Except.error (KitsuError.ReqwestUnauthorized resp))
    ∧ (resp.status ≠ 200 → resp.status ≠ 400 → resp.status ≠ 401 →
        reqwest_kitsu.handle_request decode resp
          = Except.error (KitsuError.ReqwestInvalid resp))
    ∧ (resp.status ≠ 200 → ∀ v,
        reqwest_kitsu.handle_request decode resp ≠ Except.ok v)
    ∧ (parse (reqwest_kitsu.get_anime_url apiUrl id) = true →
        (reqwest_kitsu.get_anime parse decode apiUrl id).runOn resp
          = reqwest_kitsu.handle_request decode resp)
    ∧ (parse (reqwest_kitsu.get_manga_url apiUrl id) = true →
        (reqwest_kitsu.get_manga parse decode apiUrl id).runOn resp
          = reqwest_kitsu.handle_request decode resp)
    ∧ (parse (reqwest_kitsu.get_user_url apiUrl id) = true →
        (reqwest_kitsu.get_user parse decode apiUrl id).runOn resp
          = reqwest_kitsu.handle_request decode resp)
    ∧ (parse (reqwest_kitsu.search_anime_url apiUrl f) = true →
        (reqwest_kitsu.search_anime parse decode apiUrl f).runOn resp
          = reqwest_kitsu.handle_request decode resp)
    ∧ (parse (reqwest_kitsu.search_manga_url apiUrl f) = true →
        (reqwest_kitsu.search_manga parse decode apiUrl f).runOn resp
          = reqwest_kitsu.handle_request decode resp)
    ∧ (parse (reqwest_kitsu.search_users_url apiUrl f) = true →
        (reqwest_kitsu.search_users parse decode apiUrl f).runOn resp
          = reqwest_kitsu.handle_request decode resp) := by
  refine ⟨?_, ?_, ?_, ?_, ?_, ?_, ?_, ?_, ?_, ?_, ?_, ?_⟩
  · intro h200 v hv
    rw [reqwest_kitsu.handle_request, if_pos h200, hv]
  · intro h200 e he
    rw [reqwest_kitsu.handle_request, if_pos h200, he]
  · intro h400
    rw [reqwest_kitsu.handle_request, if_neg (by omega), if_pos h400]
  · intro h401
    have hne : resp.status ≠ 200 := by omega
    have hne4 : resp.status ≠ 400 := by omega
    rw [reqwest_kitsu.handle_request, if_neg hne, if_neg hne4, if_pos h401]
  · intro h200 h400 h401
    rw [reqwest_kitsu.handle_request, if_neg h200, if_neg h400, if_neg h401]
  · intro h200 v
    rw [reqwest_kitsu.handle_request, if_neg h200]
    by_cases h400 : resp.status = 400
    · rw [if_pos h400]
      exact fun h => Except.noConfusion h
    · rw [if_neg h400]
      by_cases h401 : resp.status = 401
      · rw [if_pos h401]
        exact fun h => Except.noConfusion h
      · rw [if_neg h401]
        exact fun h => Except.noConfusion h
  · intro hp
    rw [reqwest_kitsu.get_anime]
    simp only [hp, if_true]
    rfl
  · intro hp
    rw [reqwest_kitsu.get_manga]
    simp only [hp, if_true]
    rfl
  · intro hp
    rw [reqwest_kitsu.get_user]
    simp only [hp, if_true]
    rfl
  · intro hp
    rw [reqwest_kitsu.search_anime]
    simp only [hp, if_true]
    rfl
  · intro hp
    rw [reqwest_kitsu.search_manga]
    simp only [hp, if_true]
    rfl
  · intro hp
    rw [reqwest_kitsu.search_users]
    simp only [hp, if_true]
    rfl

/-- C1 witness: the classification evaluated at concrete responses of status
200 (good and bad body), 400, 401 and 500, and a facade operation routed
through the handler. -/
theorem reqwest_response_classification_witness :
    reqwest_kitsu.handle_request decNat ⟨200, "1"⟩ = Except.ok 1
    ∧ reqwest_kitsu.handle_request decNat ⟨200, "x"⟩
        = Except.error (KitsuError.Json "invalid")
    ∧ reqwest_kitsu.handle_request decNat ⟨400, "1"⟩
        = Except.error (KitsuError.ReqwestBad ⟨400, "1"⟩)
    ∧ reqwest_kitsu.handle_request decNat ⟨401, "1"⟩
        = Except.error (KitsuError.ReqwestUnauthorized ⟨401, "1"⟩)
    ∧ reqwest_kitsu.handle_request decNat ⟨500, "1"⟩
        = Except.error (KitsuError.ReqwestInvalid ⟨500, "1"⟩)
    ∧ reqwest_kitsu.handle_request decNat ⟨400, "1"⟩ ≠ Except.ok 1
    ∧ (reqwest_kitsu.get_anime pTrue decNat "https://kitsu.io/api/edge"
        1).runOn ⟨200, "1"⟩ = reqwest_kitsu.handle_request decNat ⟨200, "1"⟩ := by
  have h := reqwest_response_classification decNat ⟨400, "1"⟩ pTrue
    "https://kitsu.io/api/edge" 1 (fun s => s)
  refine ⟨?_, ?_, ?_, ?_, ?_, ?_, ?_⟩
  · exact (reqwest_response_classification decNat ⟨200, "1"⟩ pTrue
      "https://kitsu.io/api/edge" 1 (fun s => s)).1 rfl 1 rfl
  · exact (reqwest_response_classification decNat ⟨200, "x"⟩ pTrue
      "https://kitsu.io/api/edge" 1 (fun s => s)).2.1 rfl "invalid" rfl
  · exact h.2.2.1 rfl
  · exact (reqwest_response_classification decNat ⟨401, "1"⟩ pTrue
      "https://kitsu.io/api/edge" 1 (fun s => s)).2.2.2.1 rfl
  · exact (reqwest_response_classification decNat ⟨500, "1"⟩ pTrue
      "https://kitsu.io/api/edge" 1 (fun s => s)).2.2.2.2.1
      (by decide) (by decide) (by decide)
  · exact h.2.2.2.2.2.1 (by decide) 1
  · exact (reqwest_response_classification decNat ⟨200, "1"⟩ pTrue
      "https://kitsu.io/api/edge" 1 (fun s => s)).2.2.2.2.2.2.1 rfl

/-- C2 counterexample: on the same status-400 transport response with a
well-shaped body, the reqwest backend's `get_anime` returns the ReqwestBad
error owning the response while the hyper backend's `get_anime` returns a
decoded success — the backends are not semantically identical on every
transport response. -/
theorem backend_semantics_differ_on_400 :
    (reqwest_kitsu.get_anime pTrue decNat "https://kitsu.io/api/edge" 1).runOn
        ⟨400, "1"⟩
      = Except.error (KitsuError.ReqwestBad ⟨400, "1"⟩)
    ∧ (hyper_bridge.get_anime pTrue decNat "https://kitsu.io/api/edge" 1).runOn
        ⟨400, "1"⟩
      = Except.ok 1 :=
  ⟨rfl, rfl⟩

/-- C2 (amended: on the six shared operations the two backends construct the
same URL for every id and filter function; and on any transport response of
status 200, provided the assembled URL parses, they produce the same success
value or the same error; on non-200 statuses their results differ, the
hyper backend decoding the body regardless of status). -/
theorem backends_share_urls_and_200_semantics {α : Type}
    (parse : String → Bool) (decode : String → Except String α)
    (apiUrl : String) (id : Nat) (f : Search → Search)
    (resp : TransportResponse) :
    reqwest_kitsu.get_anime_url apiUrl id = hyper_bridge.get_anime_url apiUrl id
    ∧ reqwest_kitsu.get_manga_url apiUrl id
        = hyper_bridge.get_manga_url apiUrl id
    ∧ reqwest_kitsu.get_user_url apiUrl id = hyper_bridge.get_user_url apiUrl id
    ∧ reqwest_kitsu.search_anime_url apiUrl f
        = hyper_bridge.search_anime_url apiUrl f
    ∧ reqwest_kitsu.search_manga_url apiUrl f
        = hyper_bridge.search_manga_url apiUrl f
    ∧ reqwest_kitsu.search_users_url apiUrl f
        = hyper_bridge.search_users_url apiUrl f
    ∧ (resp.status = 200 →
        (parse (reqwest_kitsu.get_anime_url apiUrl id) = true →
          (reqwest_kitsu.get_anime parse decode apiUrl id).runOn resp
            = (hyper_bridge.get_anime parse decode apiUrl id).runOn resp)
        ∧ (parse (reqwest_kitsu.get_manga_url apiUrl id) = true →
          (reqwest_kitsu.get_manga parse decode apiUrl id).runOn resp
            = (hyper_bridge.get_manga parse decode apiUrl id).runOn resp)
        ∧ (parse (reqwest_kitsu.get_user_url apiUrl id) = true →
          (reqwest_kitsu.get_user parse decode apiUrl id).runOn resp
            = (hyper_bridge.get_user parse decode apiUrl id).runOn resp)
        ∧ (parse (reqwest_kitsu.search_anime_url apiUrl f) = true →
          (reqwest_kitsu.search_anime parse decode apiUrl f).runOn resp
            = (hyper_bridge.search_anime parse decode apiUrl f).runOn resp)
        ∧ (parse (reqwest_kitsu.search_manga_url apiUrl f) = true →
          (reqwest_kitsu.search_manga parse decode apiUrl f).runOn resp
            = (hyper_bridge.search_manga parse decode apiUrl f).runOn resp)
        ∧ (parse (reqwest_kitsu.search_users_url apiUrl f) = true →
          (reqwest_kitsu.search_users parse decode apiUrl f).runOn resp
            = (hyper_bridge.search_users parse decode apiUrl f).runOn resp)) := by
  have hhandler : resp.status = 200 →
      reqwest_kitsu.handle_request decode resp
        = hyper_bridge.handle_body decode resp := by
    intro h200
    rw [reqwest_kitsu.handle_request, if_pos h200, hyper_bridge.handle_body]
  refine ⟨rfl, rfl, rfl, rfl, rfl, rfl, ?_⟩
  intro h200
  refine ⟨?_, ?_, ?_, ?_, ?_, ?_⟩
  · intro hp
    have hp2 : parse (hyper_bridge.get_anime_url apiUrl id) = true := hp
    rw [reqwest_kitsu.get_anime, hyper_bridge.get_anime]
    simp only [hp, hp2, if_true]
    exact hhandler h200
  · intro hp
    have hp2 : parse (hyper_bridge.get_manga_url apiUrl id) = true := hp
    rw [reqwest_kitsu.get_manga, hyper_bridge.get_manga]
    simp only [hp, hp2, if_true]
    exact hhandler h200
  · intro hp
    have hp2 : parse (hyper_bridge.get_user_url apiUrl id) = true := hp
    rw [reqwest_kitsu.get_user, hyper_bridge.get_user]
    simp only [hp, hp2, if_true]
    exact hhandler h200
  · intro hp
    have hp2 : parse (hyper_bridge.search_anime_url apiUrl f) = true := hp
    rw [reqwest_kitsu.search_anime, hyper_bridge.search_anime]
    simp only [hp, hp2, if_true]
    exact hhandler h200
  · intro hp
    have hp2 : parse (hyper_bridge.search_manga_url apiUrl f) = true := hp
    rw [reqwest_kitsu.search_manga, hyper_bridge.search_manga]
    simp only [hp, hp2, if_true]
    exact hhandler h200
  · intro hp
    have hp2 : parse (hyper_bridge.search_users_url apiUrl f) = true := hp
    rw [reqwest_kitsu.search_users, hyper_bridge.search_users]
    simp only [hp, hp2, if_true]
    exact hhandler h200

/-- C2 witness: the agreement evaluated at a concrete 200 response for
`get_anime` and `search_anime`. -/
theorem backends_share_urls_and_200_semantics_witness :
    reqwest_kitsu.get_anime_url "https://kitsu.io/api/edge" 1
        = hyper_bridge.get_anime_url "https://kitsu.io/api/edge" 1
    ∧ (reqwest_kitsu.get_anime pTrue decNat "https://kitsu.io/api/edge"
          1).runOn ⟨200, "1"⟩
        = (hyper_bridge.get_anime pTrue decNat "https://kitsu.io/api/edge"
          1).runOn ⟨200, "1"⟩
    ∧ (reqwest_kitsu.search_anime pTrue decNat "https://kitsu.io/api/edge"
          (fun s => s)).runOn ⟨200, "1"⟩
        = (hyper_bridge.search_anime pTrue decNat "https://kitsu.io/api/edge"
          (fun s => s)).runOn ⟨200, "1"⟩ := by
  have h := backends_share_urls_and_200_semantics pTrue decNat
    "https://kitsu.io/api/edge" 1 (fun s => s) ⟨200, "1"⟩
  exact ⟨h.1, (h.2.2.2.2.2.2 rfl).1 rfl, (h.2.2.2.2.2.2 rfl).2.2.2.1 rfl⟩

/-- C4: every search operation, once its assembled URL parses, dispatches
exactly `{API_URL}/{resource_path}?{encoded_query}` where the query is the
encoded state of the caller's filter function applied to a fresh empty
builder; a filter function that adds nothing leaves the query string empty;
and against a well-formed 200 reply the operation succeeds. -/
theorem search_dispatch_urls {α : Type} (parse : String → Bool)
    (decode : String → Except String α) (apiUrl : String)
    (f : Search → Search) (body : String) (v : α) :
    (parse (reqwest_kitsu.search_anime_url apiUrl f) = true →
        (reqwest_kitsu.search_anime parse decode apiUrl f).url
          = some (apiUrl ++ "/anime?" ++ (f Search.default).encode))
    ∧ (parse (reqwest_kitsu.search_manga_url apiUrl f) = true →
        (reqwest_kitsu.search_manga parse decode apiUrl f).url
          = some (apiUrl ++ "/manga?" ++ (f Search.default).encode))
    ∧ (parse (reqwest_kitsu.search_users_url apiUrl f) = true →
        (reqwest_kitsu.search_users parse decode apiUrl f).url
          = some (apiUrl ++ "/users?" ++ (f Search.default).encode))
    ∧ (parse (hyper_bridge.search_anime_url apiUrl f) = true →
        (hyper_bridge.search_anime parse decode apiUrl f).url
          = some (apiUrl ++ "/anime?" ++ (f Search.default).encode))
    ∧ (parse (hyper_bridge.search_characters_url apiUrl f) = true →
        (hyper_bridge.search_characters parse decode apiUrl f).url
          = some (apiUrl ++ "/characters?" ++ (f Search.default).encode))
    ∧ (parse (hyper_bridge.search_manga_url apiUrl f) = true →
        (hyper_bridge.search_manga parse decode apiUrl f).url
          = some (apiUrl ++ "/manga?" ++ (f Search.default).encode))
    ∧ (parse (hyper_bridge.search_users_url apiUrl f) = true →
        (hyper_bridge.search_users parse decode apiUrl f).url
          = some (apiUrl ++ "/users?" ++ (f Search.default).encode))
    ∧ (f Search.default = Search.default →
        reqwest_kitsu.search_anime_url apiUrl f = apiUrl ++ "/anime?")
    ∧ (decode body = Except.ok v →
        parse (reqwest_kitsu.search_anime_url apiUrl f) = true →
        (reqwest_kitsu.search_anime parse decode apiUrl f).runOn ⟨200, body⟩
          = Except.ok v) := by
  refine ⟨?_, ?_, ?_, ?_, ?_, ?_, ?_, ?_, ?_⟩
  · intro hp
    rw [reqwest_kitsu.search_anime]
    simp only [hp, if_true]
    rfl
  · intro hp
    rw [reqwest_kitsu.search_manga]
    simp only [hp, if_true]
    rfl
  · intro hp
    rw [reqwest_kitsu.search_users]
    simp only [hp, if_true]
    rfl
  · intro hp
    rw [hyper_bridge.search_anime]
    simp only [hp, if_true]
    rfl
  · intro hp
    rw [hyper_bridge.search_characters]
    simp only [hp, if_true]
    rfl
  · intro hp
    rw [hyper_bridge.search_manga]
    simp only [hp, if_true]
    rfl
  · intro hp
    rw [hyper_bridge.search_users]
    simp only [hp, if_true]
    rfl
  · intro hf
    rw [reqwest_kitsu.search_anime_url, hf]
    show apiUrl ++ "/anime?" ++ "" = apiUrl ++ "/anime?"
    rw [String.append_empty]
  · intro hd hp
    rw [reqwest_kitsu.search_anime]
    simp only [hp, if_true]
    show reqwest_kitsu.handle_request decode ⟨200, body⟩ = Except.ok v
    rw [reqwest_kitsu.handle_request]
    simp only [if_pos rfl]
    simp [hd]

/-- C4 witness: a concrete empty-filter search against a 200 reply. -/
theorem search_dispatch_urls_witness :
    (reqwest_kitsu.search_anime pTrue decNat "https://kitsu.io/api/edge"
        (fun s => s)).url
      = some ("https://kitsu.io/api/edge" ++ "/anime?"
          ++ ((fun s => s) Search.default).encode)
    ∧ reqwest_kitsu.search_anime_url "https://kitsu.io/api/edge" (fun s => s)
        = "https://kitsu.io/api/edge" ++ "/anime?"
    ∧ (reqwest_kitsu.search_anime pTrue decNat "https://kitsu.io/api/edge"
        (fun s => s)).runOn ⟨200, "1"⟩ = Except.ok 1 := by
  have h := search_dispatch_urls pTrue decNat "https://kitsu.io/api/edge"
    (fun s => s) "1" 1
  exact ⟨h.1 rfl, h.2.2.2.2.2.2.2.1 rfl, h.2.2.2.2.2.2.2.2 rfl rfl⟩

/-- C5: on either backend, when the assembled URL string fails to parse, the
operation returns the backend's URL-construction error (`ReqwestParse` /
`Uri`) as an immediate `Op.fail` — which carries no URL and no handler, so
the network is never contacted. -/
theorem ops_fail_before_network {α : Type} (parse : String → Bool)
    (decode : String → Except String α) (apiUrl : String) (id : Nat)
    (f : Search → Search) :
    (parse (reqwest_kitsu.get_anime_url apiUrl id) = false →
        reqwest_kitsu.get_anime parse decode apiUrl id
          = Op.fail KitsuError.ReqwestParse)
    ∧ (parse (reqwest_kitsu.get_manga_url apiUrl id) = false →
        reqwest_kitsu.get_manga parse decode apiUrl id
          = Op.fail KitsuError.ReqwestParse)
    ∧ (parse (reqwest_kitsu.get_user_url apiUrl id) = false →
        reqwest_kitsu.get_user parse decode apiUrl id
          = Op.fail KitsuError.ReqwestParse)
    ∧ (parse (reqwest_kitsu.search_anime_url apiUrl f) = false →
        reqwest_kitsu.search_anime parse decode apiUrl f
          = Op.fail KitsuError.ReqwestParse)
    ∧ (parse (reqwest_kitsu.search_manga_url apiUrl f) = false →
        reqwest_kitsu.search_manga parse decode apiUrl f
          = Op.fail KitsuError.ReqwestParse)
    ∧ (parse (reqwest_kitsu.search_users_url apiUrl f) = false →
        reqwest_kitsu.search_users parse decode apiUrl f
          = Op.fail KitsuError.ReqwestParse)
    ∧ (parse (hyper_bridge.get_anime_url apiUrl id) = false →
        hyper_bridge.get_anime parse decode apiUrl id
          = Op.fail KitsuError.Uri)
    ∧ (parse (hyper_bridge.get_character_url apiUrl id) = false →
        hyper_bridge.get_character parse decode apiUrl id
          = Op.fail KitsuError.Uri)
    ∧ (parse (hyper_bridge.get_manga_url apiUrl id) = false →
        hyper_bridge.get_manga parse decode apiUrl id
          = Op.fail KitsuError.Uri)
    ∧ (parse (hyper_bridge.get_producer_url apiUrl id) = false →
        hyper_bridge.get_producer parse decode apiUrl id
          = Op.fail KitsuError.Uri)
    ∧ (parse (hyper_bridge.get_user_url apiUrl id) = false →
        hyper_bridge.get_user parse decode apiUrl id
          = Op.fail KitsuError.Uri)
    ∧ (parse (hyper_bridge.search_anime_url apiUrl f) = false →
        hyper_bridge.search_anime parse decode apiUrl f
          = Op.fail KitsuError.Uri)
    ∧ (parse (hyper_bridge.search_characters_url apiUrl f) = false →
        hyper_bridge.search_characters parse decode apiUrl f
          = Op.fail KitsuError.Uri)
    ∧ (parse (hyper_bridge.search_manga_url apiUrl f) = false →
        hyper_bridge.search_manga parse decode apiUrl f
          = Op.fail KitsuError.Uri)
    ∧ (parse (hyper_bridge.search_users_url apiUrl f) = false →
        hyper_bridge.search_users parse decode apiUrl f
          = Op.fail KitsuError.Uri) := by
  refine ⟨?_, ?_, ?_, ?_, ?_, ?_, ?_, ?_, ?_, ?_, ?_, ?_, ?_, ?_, ?_⟩
  all_goals intro hp
  · rw [reqwest_kitsu.get_anime]; simp only [hp, Bool.false_eq_true, if_false]
  · rw [reqwest_kitsu.get_manga]; simp only [hp, Bool.false_eq_true, if_false]
  · rw [reqwest_kitsu.get_user]; simp only [hp, Bool.false_eq_true, if_false]
  · rw [reqwest_kitsu.search_anime]
    simp only [hp, Bool.false_eq_true, if_false]
  · rw [reqwest_kitsu.search_manga]
    simp only [hp, Bool.false_eq_true, if_false]
  · rw [reqwest_kitsu.search_users]
    simp only [hp, Bool.false_eq_true, if_false]
  · rw [hyper_bridge.get_anime]; simp only [hp, Bool.false_eq_true, if_false]
  · rw [hyper_bridge.get_character]
    simp only [hp, Bool.false_eq_true, if_false]
  · rw [hyper_bridge.get_manga]; simp only [hp, Bool.false_eq_true, if_false]
  · rw [hyper_bridge.get_producer]
    simp only [hp, Bool.false_eq_true, if_false]
  · rw [hyper_bridge.get_user]; simp only [hp, Bool.false_eq_true, if_false]
  · rw [hyper_bridge.search_anime]
    simp only [hp, Bool.false_eq_true, if_false]
  · rw [hyper_bridge.search_characters]
    simp only [hp, Bool.false_eq_true, if_false]
  · rw [hyper_bridge.search_manga]
    simp only [hp, Bool.false_eq_true, if_false]
  · rw [hyper_bridge.search_users]
    simp only [hp, Bool.false_eq_true, if_false]

/-- C5 witness: a parser rejecting every string makes each operation fail
immediately with the backend's URL-construction error. -/
theorem ops_fail_before_network_witness :
    reqwest_kitsu.get_anime pFalse decNat "https://kitsu.io/api/edge" 1
        = Op.fail KitsuError.ReqwestParse
    ∧ reqwest_kitsu.search_users pFalse decNat "https://kitsu.io/api/edge"
        (fun s => s) = Op.fail KitsuError.ReqwestParse
    ∧ hyper_bridge.get_producer pFalse decNat "https://kitsu.io/api/edge" 1
        = Op.fail KitsuError.Uri
    ∧ hyper_bridge.search_characters pFalse decNat "https://kitsu.io/api/edge"
        (fun s => s) = Op.fail KitsuError.Uri := by
  have h := ops_fail_before_network (α := Nat) pFalse decNat
    "https://kitsu.io/api/edge" 1 (fun s => s)
  exact ⟨h.1 rfl, h.2.2.2.2.2.1 rfl, h.2.2.2.2.2.2.2.2.2.1 rfl,
    h.2.2.2.2.2.2.2.2.2.2.2.2.1 rfl⟩

/-- C9 counterexample: in the reqwest backend — the only backend that prints
at all — `search_anime` emits no diagnostic line on a search call that
reaches dispatch (while `search_manga` does), and no hyper search prints, so
neither backend prints a diagnostic on every search call. -/
theorem search_anime_prints_nothing :
    (reqwest_kitsu.search_anime pTrue decNat "https://kitsu.io/api/edge"
        (fun s => s)).diag = []
    ∧ (reqwest_kitsu.search_manga pTrue decNat "https://kitsu.io/api/edge"
        (fun s => s)).diag
      = ["Reqwesting uri: "
          ++ reqwest_kitsu.search_manga_url "https://kitsu.io/api/edge"
              (fun s => s)]
    ∧ (hyper_bridge.search_anime pTrue decNat "https://kitsu.io/api/edge"
        (fun s => s)).diag = []
    ∧ (hyper_bridge.search_manga pTrue decNat "https://kitsu.io/api/edge"
        (fun s => s)).diag = [] :=
  ⟨rfl, rfl, rfl, rfl⟩

/-- C9 (amended: in the reqwest backend, `search_manga` and `search_users`
print the diagnostic line `Reqwesting uri: {uri}` unconditionally once the
URL parses, before dispatch; `search_anime`, the reqwest get operations, and
every hyper operation emit no diagnostic output). -/
theorem diagnostic_output_profile {α : Type} (parse : String → Bool)
    (decode : String → Except String α) (apiUrl : String) (id : Nat)
    (f : Search → Search) :
    (parse (reqwest_kitsu.search_manga_url apiUrl f) = true →
        (reqwest_kitsu.search_manga parse decode apiUrl f).diag
          = ["Reqwesting uri: " ++ reqwest_kitsu.search_manga_url apiUrl f])
    ∧ (parse (reqwest_kitsu.search_users_url apiUrl f) = true →
        (reqwest_kitsu.search_users parse decode apiUrl f).diag
          = ["Reqwesting uri: " ++ reqwest_kitsu.search_users_url apiUrl f])
    ∧ (reqwest_kitsu.search_anime parse decode apiUrl f).diag = []
    ∧ (reqwest_kitsu.get_anime parse decode apiUrl id).diag = []
    ∧ (reqwest_kitsu.get_manga parse decode apiUrl id).diag = []
    ∧ (reqwest_kitsu.get_user parse decode apiUrl id).diag = []
    ∧ (hyper_bridge.get_anime parse decode apiUrl id).diag = []
    ∧ (hyper_bridge.get_character parse decode apiUrl id).diag = []
    ∧ (hyper_bridge.get_manga parse decode apiUrl id).diag = []
    ∧ (hyper_bridge.get_producer parse decode apiUrl id).diag = []
    ∧ (hyper_bridge.get_user parse decode apiUrl id).diag = []
    ∧ (hyper_bridge.search_anime parse decode apiUrl f).diag = []
    ∧ (hyper_bridge.search_characters parse decode apiUrl f).diag = []
    ∧ (hyper_bridge.search_manga parse decode apiUrl f).diag = []
    ∧ (hyper_bridge.search_users parse decode apiUrl f).diag = [] := by
  refine ⟨?_, ?_, ?_, ?_, ?_, ?_, ?_, ?_, ?_, ?_, ?_, ?_, ?_, ?_, ?_⟩
  · intro hp
    rw [reqwest_kitsu.search_manga]
    simp only [hp, if_true]
    rfl
  · intro hp
    rw [reqwest_kitsu.search_users]
    simp only [hp, if_true]
    rfl
  · rw [reqwest_kitsu.search_anime]
    split <;> rfl
  · rw [reqwest_kitsu.get_anime]
    split <;> rfl
  · rw [reqwest_kitsu.get_manga]
    split <;> rfl
  · rw [reqwest_kitsu.get_user]
    split <;> rfl
  · rw [hyper_bridge.get_anime]
    split <;> rfl
  · rw [hyper_bridge.get_character]
    split <;> rfl
  · rw [hyper_bridge.get_manga]
    split <;> rfl
  · rw [hyper_bridge.get_producer]
    split <;> rfl
  · rw [hyper_bridge.get_user]
    split <;> rfl
  · rw [hyper_bridge.search_anime]
    split <;> rfl
  · rw [hyper_bridge.search_characters]
    split <;> rfl
  · rw [hyper_bridge.search_manga]
    split <;> rfl
  · rw [hyper_bridge.search_users]
    split <;> rfl

/-- C9 witness: the diagnostic profile evaluated at the all-accepting
parser. -/
theorem diagnostic_output_profile_witness :
    (reqwest_kitsu.search_manga pTrue decNat "https://kitsu.io/api/edge"
        (fun s => s)).diag
      = ["Reqwesting uri: "
          ++ reqwest_kitsu.search_manga_url "https://kitsu.io/api/edge"
              (fun s => s)]
    ∧ (reqwest_kitsu.search_users pTrue decNat "https://kitsu.io/api/edge"
        (fun s => s)).diag
      = ["Reqwesting uri: "
          ++ reqwest_kitsu.search_users_url "https://kitsu.io/api/edge"
              (fun s => s)]
    ∧ (reqwest_kitsu.get_anime pTrue decNat "https://kitsu.io/api/edge"
        1).diag = [] := by
  have h := diagnostic_output_profile pTrue decNat "https://kitsu.io/api/edge"
    1 (fun s => s)
  exact ⟨h.1 rfl, h.2.1 rfl, h.2.2.2.1⟩

/-- C10: under the modelled URL validity predicate, a valid absolute base
makes every reqwest get-by-id URL valid — the appended `/{resource}/{id}`
consists of URL characters (the id renders as decimal digits) — so
`get_anime`, `get_manga` and `get_user` always reach dispatch and never
return the `ReqwestParse` error. -/
theorem reqwest_get_urls_always_parse {α : Type}
    (decode : String → Except String α) (apiUrl : String) (id : Nat)
    (h : urlParseOk apiUrl = true) :
    urlParseOk (reqwest_kitsu.get_anime_url apiUrl id) = true
    ∧ urlParseOk (reqwest_kitsu.get_manga_url apiUrl id) = true
    ∧ urlParseOk (reqwest_kitsu.get_user_url apiUrl id) = true
    ∧ reqwest_kitsu.get_anime urlParseOk decode apiUrl id
        = Op.request (reqwest_kitsu.get_anime_url apiUrl id) []
            (reqwest_kitsu.handle_request decode)
    ∧ reqwest_kitsu.get_manga urlParseOk decode apiUrl id
        = Op.request (reqwest_kitsu.get_manga_url apiUrl id) []
            (reqwest_kitsu.handle_request decode)
    ∧ reqwest_kitsu.get_user urlParseOk decode apiUrl id
        = Op.request (reqwest_kitsu.get_user_url apiUrl id) []
            (reqwest_kitsu.handle_request decode)
    ∧ reqwest_kitsu.get_anime urlParseOk decode apiUrl id
        ≠ Op.fail KitsuError.ReqwestParse
    ∧ reqwest_kitsu.get_manga urlParseOk decode apiUrl id
        ≠ Op.fail KitsuError.ReqwestParse
    ∧ reqwest_kitsu.get_user urlParseOk decode apiUrl id
        ≠ Op.fail KitsuError.ReqwestParse := by
  have hdigits : ∀ c ∈ (rustU64ToString id).data, allowedUrlChar c = true :=
    fun c hc => isDigit_allowedUrlChar c (decDigits_isDigit id c hc)
  have hanime : urlParseOk (reqwest_kitsu.get_anime_url apiUrl id) = true := by
    rw [reqwest_kitsu.get_anime_url]
    exact urlParseOk_append _ _
      (urlParseOk_append _ _ h (by decide)) hdigits
  have hmanga : urlParseOk (reqwest_kitsu.get_manga_url apiUrl id) = true := by
    rw [reqwest_kitsu.get_manga_url]
    exact urlParseOk_append _ _
      (urlParseOk_append _ _ h (by decide)) hdigits
  have huser : urlParseOk (reqwest_kitsu.get_user_url apiUrl id) = true := by
    rw [reqwest_kitsu.get_user_url]
    exact urlParseOk_append _ _
      (urlParseOk_append _ _ h (by decide)) hdigits
  have e1 : reqwest_kitsu.get_anime urlParseOk decode apiUrl id
      = Op.request (reqwest_kitsu.get_anime_url apiUrl id) []
          (reqwest_kitsu.handle_request decode) := by
    rw [reqwest_kitsu.get_anime]
    simp only [hanime, if_true]
  have e2 : reqwest_kitsu.get_manga urlParseOk decode apiUrl id
      = Op.request (reqwest_kitsu.get_manga_url apiUrl id) []
          (reqwest_kitsu.handle_request decode) := by
    rw [reqwest_kitsu.get_manga]
    simp only [hmanga, if_true]
  have e3 : reqwest_kitsu.get_user urlParseOk decode apiUrl id
      = Op.request (reqwest_kitsu.get_user_url apiUrl id) []
          (reqwest_kitsu.handle_request decode) := by
    rw [reqwest_kitsu.get_user]
    simp only [huser, if_true]
  refine ⟨hanime, hmanga, huser, e1, e2, e3, ?_, ?_, ?_⟩
  · rw [e1]; exact fun hcontra => Op.noConfusion hcontra
  · rw [e2]; exact fun hcontra => Op.noConfusion hcontra
  · rw [e3]; exact fun hcontra => Op.noConfusion hcontra

/-- C10 witness: the real service root is accepted by the modelled parser,
and `get_anime` at id 1 dispatches. -/
theorem reqwest_get_urls_always_parse_witness :
    urlParseOk "https://kitsu.io/api/edge" = true
    ∧ urlParseOk
        (reqwest_kitsu.get_anime_url "https://kitsu.io/api/edge" 1) = true
    ∧ reqwest_kitsu.get_anime urlParseOk decNat "https://kitsu.io/api/edge" 1
        ≠ Op.fail KitsuError.ReqwestParse := by
  have hbase : urlParseOk "https://kitsu.io/api/edge" = true := by decide
  have h := reqwest_get_urls_always_parse decNat "https://kitsu.io/api/edge"
    1 hbase
  exact ⟨hbase, h.1, h.2.2.2.2.2.2.1⟩
